import Mathlib

/-!
Shallow embedding of `iiif_downgrade` (IIIF v3 → v2 manifest converter).

JSON values are modelled by `JV`; Python dictionary / list / string operations
(`d.get`, `d[k]`, `v[0]`, `x in v`, `for … in v`, truthiness) are modelled as
total Lean functions into `Except PyErr _`, where `PyErr` stands for the Python
exception that the corresponding operation raises.  The two near-duplicate
converter classes (`converter/converter.py` and `iiif_downgrade.py`) are
embedded as `converter_convert` and `downgrade_convert` over an explicit
instance state `ConvSt`.
-/

/-- A JSON value as decoded into Python objects: `None`, `bool`, `int`,
`str`, `list`, `dict` (insertion-ordered, string keys). -/
inductive JV : Type where
  | null : JV
  | bool : Bool → JV
  | num : Int → JV
  | str : String → JV
  | arr : List JV → JV
  | obj : List (String × JV) → JV

/-- Python exceptions raised by the modelled operations. -/
inductive PyErr : Type where
  | typeError : PyErr
  | indexError : PyErr
  | keyError : PyErr
  | attributeError : PyErr
  | runtimeError : PyErr
deriving Repr, DecidableEq

/-- Python truthiness of a JSON value (`bool(v)`). -/
def truthy : JV → Bool
  | .null => false
  | .bool b => b
  | .num n => n != 0
  | .str s => s != ""
  | .arr xs => !xs.isEmpty
  | .obj fs => !fs.isEmpty

/-- Dictionary lookup on the ordered field list (first binding wins). -/
def lookupKey : List (String × JV) → String → Option JV
  | [], _ => none
  | (k', v) :: rest, k => if k' = k then some v else lookupKey rest k

/-- `d[k] = v` on the ordered field list: replace in place, else append. -/
def setKey : List (String × JV) → String → JV → List (String × JV)
  | [], k, v => [(k, v)]
  | (k', v') :: rest, k, v =>
      if k' = k then (k, v) :: rest else (k', v') :: setKey rest k v

/-- Remove a key from the ordered field list (used only in statements). -/
def removeKey : List (String × JV) → String → List (String × JV)
  | [], _ => []
  | (k', v) :: rest, k =>
      if k' = k then removeKey rest k else (k', v) :: removeKey rest k

/-- Python `v.get(k, d)`: `AttributeError` unless `v` is a dict. -/
def pyGetD (v : JV) (k : String) (d : JV) : Except PyErr JV :=
  match v with
  | .obj fs => .ok ((lookupKey fs k).getD d)
  | _ => .error .attributeError

/-- Python `v.get(k)` (default `None`). -/
def pyGet (v : JV) (k : String) : Except PyErr JV :=
  pyGetD v k .null

/-- Python `v[k]` for a string key `k`. -/
def pySubscript (v : JV) (k : String) : Except PyErr JV :=
  match v with
  | .obj fs =>
      match lookupKey fs k with
      | some x => .ok x
      | none => .error .keyError
  | _ => .error .typeError

/-- Python `v[0]`: head of a list or string, `KeyError` on a dict
(integer key never present in a string-keyed JSON dict), `TypeError`
otherwise. -/
def pyIndex0 (v : JV) : Except PyErr JV :=
  match v with
  | .arr [] => .error .indexError
  | .arr (x :: _) => .ok x
  | .str s =>
      match s.data with
      | [] => .error .indexError
      | c :: _ => .ok (.str (String.mk [c]))
  | .obj _ => .error .keyError
  | _ => .error .typeError

/-- Python `k in v` for a string `k`: key membership on a dict, element
membership on a list, substring test on a string, `TypeError` otherwise. -/
def pyContains (v : JV) (k : String) : Except PyErr Bool :=
  match v with
  | .obj fs => .ok (fs.any (fun p => p.1 == k))
  | .arr xs =>
      .ok (xs.any (fun x => match x with | .str s => s == k | _ => false))
  | .str s => .ok (decide (k.data <:+: s.data))
  | _ => .error .typeError

/-- Python `for x in v`: a list iterates its elements, a dict its keys,
a string its characters, everything else raises `TypeError`. -/
def pyIter (v : JV) : Except PyErr (List JV) :=
  match v with
  | .arr xs => .ok xs
  | .obj fs => .ok (fs.map (fun p => JV.str p.1))
  | .str s => .ok (s.data.map (fun c => JV.str (String.mk [c])))
  | _ => .error .typeError

/-- Python `b != ""`: only the string `""` compares equal to `""`. -/
def neEmptyStr : JV → Bool
  | .str s => s != ""
  | _ => true

/-- A `for` loop that appends `f x` for each element, aborting on the first
exception (models the accumulate-into-a-list loops of the converter). -/
def exceptMap {α : Type} (f : JV → Except PyErr α) : List JV → Except PyErr (List α)
  | [] => .ok []
  | x :: xs =>
      match f x with
      | .error e => .error e
      | .ok y =>
          match exceptMap f xs with
          | .error e => .error e
          | .ok ys => .ok (y :: ys)

/-- Python `v[k] = x` on the in-progress output dict. -/
def setItem (v : JV) (k : String) (x : JV) : Except PyErr JV :=
  match v with
  | .obj fs => .ok (.obj (setKey fs k x))
  | _ => .error .typeError

/-! ### The converter methods (`IIIFv3toV2Converter`) -/

/-- One step of `_label_to_v2`'s `for lang, values in label_obj.items()` loop:
the first truthy value is indexed with `[0]` and returned; if no value is
truthy the loop falls through to `return ""`. -/
def labelGo : List (String × JV) → Except PyErr JV
  | [] => .ok (.str "")
  | (_, values) :: rest =>
      if truthy values then pyIndex0 values else labelGo rest

/-- `_label_to_v2(label_obj)`. -/
def label_to_v2 : JV → Except PyErr JV
  | .obj fs => labelGo fs
  | _ => .ok (.str "")

/-- Loop body of `_metadata_to_v2`. -/
def metadataEntry (entry : JV) : Except PyErr JV :=
  match pyGet entry "label" with
  | .error e => .error e
  | .ok lv =>
  match label_to_v2 lv with
  | .error e => .error e
  | .ok l =>
  match pyGet entry "value" with
  | .error e => .error e
  | .ok vv =>
  match label_to_v2 vv with
  | .error e => .error e
  | .ok v => .ok (.obj [("label", l), ("value", v)])

/-- `_metadata_to_v2(metadata_list)`. -/
def metadata_to_v2 (metadata_list : JV) : Except PyErr JV :=
  match pyIter metadata_list with
  | .error e => .error e
  | .ok entries =>
  match exceptMap metadataEntry entries with
  | .error e => .error e
  | .ok out => .ok (.arr out)

/-- Inner loop body of `_annotations_to_v2`: build one v2 image annotation
from one v3 annotation (`body = anno.get("body", {})` and the dict literal,
whose value expressions evaluate left to right). -/
def annoImage (canvas anno : JV) : Except PyErr JV :=
  match pyGetD anno "body" (.obj []) with
  | .error e => .error e
  | .ok body =>
  match pyGet body "id" with
  | .error e => .error e
  | .ok bid =>
  match pyGet body "format" with
  | .error e => .error e
  | .ok bf =>
  match pyGet body "height" with
  | .error e => .error e
  | .ok bh =>
  match pyGet body "width" with
  | .error e => .error e
  | .ok bw =>
  match pyGet canvas "id" with
  | .error e => .error e
  | .ok onv =>
      .ok (.obj [("@type", .str "oa:Annotation"),
        ("motivation", .str "sc:painting"),
        ("resource", .obj [("@id", bid), ("@type", .str "dctypes:Image"),
          ("format", bf), ("height", bh), ("width", bw)]),
        ("on", onv)])

/-- One annotation page of `_annotations_to_v2`:
`for anno in annotation_page.get("items", [])`. -/
def pageImages (canvas page : JV) : Except PyErr (List JV) :=
  match pyGetD page "items" (.arr []) with
  | .error e => .error e
  | .ok annos =>
  match pyIter annos with
  | .error e => .error e
  | .ok annoList => exceptMap (annoImage canvas) annoList

/-- `_annotations_to_v2(canvas)`: the two nested loops append into one flat
`images` list, which is the concatenation of the per-page lists. -/
def annotations_to_v2 (canvas : JV) : Except PyErr JV :=
  match pyGetD canvas "items" (.arr []) with
  | .error e => .error e
  | .ok pages =>
  match pyIter pages with
  | .error e => .error e
  | .ok pageList =>
  match exceptMap (pageImages canvas) pageList with
  | .error e => .error e
  | .ok imagess => .ok (.arr imagess.flatten)

/-- Loop body of `_canvases_to_v2`: one v2 canvas dict literal. -/
def canvasToV2 (canvas : JV) : Except PyErr JV :=
  match pyGet canvas "id" with
  | .error e => .error e
  | .ok cid =>
  match pyGet canvas "label" with
  | .error e => .error e
  | .ok labv =>
  match label_to_v2 labv with
  | .error e => .error e
  | .ok lab =>
  match pyGet canvas "height" with
  | .error e => .error e
  | .ok h =>
  match pyGet canvas "width" with
  | .error e => .error e
  | .ok w =>
  match annotations_to_v2 canvas with
  | .error e => .error e
  | .ok imgs =>
      .ok (.obj [("@id", cid), ("@type", .str "sc:Canvas"), ("label", lab),
        ("height", h), ("width", w), ("images", imgs)])

/-- `_canvases_to_v2(items)`. -/
def canvases_to_v2 (items : JV) : Except PyErr JV :=
  match pyIter items with
  | .error e => .error e
  | .ok xs =>
  match exceptMap canvasToV2 xs with
  | .error e => .error e
  | .ok cs => .ok (.arr cs)

/-- The `service` part of `_thumbnail_to_v2`:
`if "service" in v3_thumbnail and v3_thumbnail["service"]: svc = ...[0]; service = {...}`
with `service = None` otherwise. -/
def thumbService (t : JV) : Except PyErr JV :=
  match pyContains t "service" with
  | .error e => .error e
  | .ok false => .ok .null
  | .ok true =>
  match pySubscript t "service" with
  | .error e => .error e
  | .ok svcs =>
  if truthy svcs then
    match pyIndex0 svcs with
    | .error e => .error e
    | .ok svc =>
    match pyGetD svc "label" (.str "IIIF Image Service") with
    | .error e => .error e
    | .ok slabel =>
    match pyGet svc "id" with
    | .error e => .error e
    | .ok sid =>
        .ok (.obj [("label", slabel),
          ("profile", .str "http://iiif.io/api/image/2/level0.json"),
          ("@context", .str "http://iiif.io/api/image/2/context.json"),
          ("@id", sid)])
  else .ok .null

/-- Tail of `_thumbnail_to_v2` after the list normalisation: the service
block followed by the returned `{"@id": ..., "service": service}` literal. -/
def thumbCore (t : JV) : Except PyErr JV :=
  match thumbService t with
  | .error e => .error e
  | .ok service =>
  match pyGet t "id" with
  | .error e => .error e
  | .ok tid => .ok (.obj [("@id", tid), ("service", service)])

/-- `_thumbnail_to_v2(v3_thumbnail)`: falsy input returns `None`; a list is
replaced by its first element; then `thumbCore`. -/
def thumbnail_to_v2 (v3_thumbnail : JV) : Except PyErr JV :=
  if truthy v3_thumbnail then
    match v3_thumbnail with
    | .arr xs =>
        (match pyIndex0 (.arr xs) with
         | .error e => .error e
         | .ok t => thumbCore t)
    | t => thumbCore t
  else .ok .null

/-! ### `convert` and `save` -/

/-- Converter instance state: the stored v3 manifest, the optional override
id from the constructor, and `self.v2_manifest` (initially `None`). -/
structure ConvSt : Type where
  v3 : JV
  override : Option JV
  v2 : Option JV

/-- The constructor: `TypeError` unless the manifest is a dict;
`self.v2_manifest = None`. -/
def mkConverter (manifest : JV) (manifest_id : Option JV) : Except PyErr ConvSt :=
  match manifest with
  | .obj _ => .ok ⟨manifest, manifest_id, none⟩
  | _ => .error .typeError

/-- `manifest_id = self.override_id or v3.get("id")`: Python `or` keeps the
left operand when it is truthy. An absent override is `None` (falsy). -/
def resolveId (ov : Option JV) (v3 : JV) : Except PyErr JV :=
  match ov with
  | some o => if truthy o then .ok o else pyGet v3 "id"
  | none => pyGet v3 "id"

/-- The big dict literal assigned to `self.v2_manifest` (the `manifest_id`
line runs first; the literal's value expressions evaluate left to right). -/
def buildBase (v3 : JV) (ov : Option JV) : Except PyErr JV :=
  match resolveId ov v3 with
  | .error e => .error e
  | .ok mid =>
  match pyGet v3 "label" with
  | .error e => .error e
  | .ok labv =>
  match label_to_v2 labv with
  | .error e => .error e
  | .ok lab =>
  match pyGetD v3 "metadata" (.arr []) with
  | .error e => .error e
  | .ok mdv =>
  match metadata_to_v2 mdv with
  | .error e => .error e
  | .ok md =>
  match pyGetD v3 "items" (.arr []) with
  | .error e => .error e
  | .ok its =>
  match canvases_to_v2 its with
  | .error e => .error e
  | .ok cs =>
      .ok (.obj [("@context", .str "http://iiif.io/api/presentation/2/context.json"),
        ("@type", .str "sc:Manifest"), ("@id", mid), ("label", lab),
        ("metadata", md),
        ("sequences", .arr [.obj [("@type", .str "sc:Sequence"), ("canvases", cs)]])])

/-- The thumbnail block of `converter/converter.py`'s `convert`:
`first_canvas = v3.get("items", [None])[0]`,
`if first_canvas and "thumbnail" in first_canvas: ...`. -/
def applyThumb (v3 base : JV) : Except PyErr JV :=
  match pyGetD v3 "items" (.arr [.null]) with
  | .error e => .error e
  | .ok items =>
  match pyIndex0 items with
  | .error e => .error e
  | .ok fc =>
  if truthy fc then
    match pyContains fc "thumbnail" with
    | .error e => .error e
    | .ok false => .ok base
    | .ok true =>
      match pySubscript fc "thumbnail" with
      | .error e => .error e
      | .ok tv =>
      match thumbnail_to_v2 tv with
      | .error e => .error e
      | .ok thumb =>
          if truthy thumb then setItem base "thumbnail" thumb else .ok base
  else .ok base

/-- The behavior block shared by both variants:
`if v3.get("behavior", "") != "": self.v2_manifest["viewingHint"] = v3.get("behavior")[0]`. -/
def applyBehavior (v3 m : JV) : Except PyErr JV :=
  match pyGetD v3 "behavior" (.str "") with
  | .error e => .error e
  | .ok b =>
  if neEmptyStr b then
    match pyGet v3 "behavior" with
    | .error e => .error e
    | .ok b2 =>
    match pyIndex0 b2 with
    | .error e => .error e
    | .ok h => setItem m "viewingHint" h
  else .ok m

/-- `convert` of `converter/converter.py` (the thumbnail-attaching variant),
as a state transition: `self.v2_manifest` is assigned before the thumbnail
and behavior blocks run, so a later exception leaves it assigned. -/
def converter_convert (st : ConvSt) : ConvSt × Except PyErr JV :=
  match buildBase st.v3 st.override with
  | .error e => (st, .error e)
  | .ok base =>
    match applyThumb st.v3 base with
    | .error e => ({ st with v2 := some base }, .error e)
    | .ok m1 =>
      match applyBehavior st.v3 m1 with
      | .error e => ({ st with v2 := some m1 }, .error e)
      | .ok m2 => ({ st with v2 := some m2 }, .ok m2)

/-- `convert` of `iiif_downgrade.py` (no thumbnail handling). -/
def downgrade_convert (st : ConvSt) : ConvSt × Except PyErr JV :=
  match buildBase st.v3 st.override with
  | .error e => (st, .error e)
  | .ok base =>
    match applyBehavior st.v3 base with
    | .error e => ({ st with v2 := some base }, .error e)
    | .ok m2 => ({ st with v2 := some m2 }, .ok m2)

/-- `save(output_path)`: `RuntimeError` when `self.v2_manifest` is falsy
(`None` or an empty dict); otherwise the manifest value that gets serialized
to disk is returned (`.ok` = the file is written with exactly this content,
`.error` = nothing is written). -/
def save (st : ConvSt) : Except PyErr JV :=
  match st.v2 with
  | none => .error .runtimeError
  | some m => if truthy m then .ok m else .error .runtimeError

/-! ### Statement-side helpers (formalising the spec's vocabulary) -/

/-- Whether a value is a mapping. -/
def isObj : JV → Bool
  | .obj _ => true
  | _ => false

/-- The spec's description of the Label Resolver on a mapping whose values
are sequences: the first element of the first key whose sequence is
non-empty, else the empty string. -/
def specFirstLabel : List (String × JV) → JV
  | [] => .str ""
  | (_, v) :: rest =>
      match v with
      | .arr (x :: _) => x
      | _ => specFirstLabel rest

/-- The annotations of one annotation page (`page.get("items", [])`),
read off a well-shaped page. -/
def pageAnnos (p : JV) : List JV :=
  match p with
  | .obj pfs =>
      match (lookupKey pfs "items").getD (.arr []) with
      | .arr annos => annos
      | _ => []
  | _ => []

/-- A field of an annotation's `body` (`anno.get("body", {}).get(k)`),
read off a well-shaped annotation. -/
def specBodyField (a : JV) (k : String) : JV :=
  match a with
  | .obj afs =>
      match (lookupKey afs "body").getD (.obj []) with
      | .obj bfs => (lookupKey bfs k).getD .null
      | _ => .null
  | _ => .null

/-- The v2 image annotation the spec expects for one v3 annotation `a`
targeting the canvas id `cid`. -/
def specImage (cid : JV) (a : JV) : JV :=
  .obj [("@type", .str "oa:Annotation"), ("motivation", .str "sc:painting"),
    ("resource", .obj [("@id", specBodyField a "id"), ("@type", .str "dctypes:Image"),
      ("format", specBodyField a "format"), ("height", specBodyField a "height"),
      ("width", specBodyField a "width")]),
    ("on", cid)]

/-- A well-shaped v3 annotation: a mapping whose `body`, when present,
is a mapping. -/
def bodyOk (a : JV) : Prop :=
  ∃ afs, a = .obj afs ∧ ∀ b, lookupKey afs "body" = some b → ∃ bfs, b = .obj bfs

/-- A well-shaped v3 annotation page: a mapping whose `items` (default `[]`)
is a sequence of well-shaped annotations. -/
def pageOk (p : JV) : Prop :=
  ∃ pfs, p = .obj pfs ∧ ∃ annos, (lookupKey pfs "items").getD (.arr []) = .arr annos ∧
    ∀ a ∈ annos, bodyOk a

/-- The spec's id resolution: the override when truthy, else the manifest's
`id` (`None` when absent). -/
def specResolvedId (ov : Option JV) (fs : List (String × JV)) : JV :=
  match ov with
  | some o => if truthy o then o else (lookupKey fs "id").getD .null
  | none => (lookupKey fs "id").getD .null

/-! ### Dictionary and loop lemmas -/

theorem lookupKey_setKey (fs : List (String × JV)) (k k' : String) (v : JV) :
    lookupKey (setKey fs k v) k' = if k' = k then some v else lookupKey fs k' := by
  induction fs with
  | nil =>
      by_cases h1 : k' = k
      · subst h1; simp [setKey, lookupKey]
      · have h2 : ¬(k = k') := fun h => h1 h.symm
        simp [setKey, lookupKey, h1, h2]
  | cons p rest ih =>
      obtain ⟨k0, v0⟩ := p
      by_cases h0 : k0 = k
      · subst h0
        by_cases h1 : k' = k0
        · subst h1; simp [setKey, lookupKey]
        · have h2 : ¬(k0 = k') := fun h => h1 h.symm
          simp [setKey, lookupKey, h1, h2]
      · by_cases h1 : k0 = k'
        · subst h1
          have h2 : ¬(k0 = k) := h0
          simp [setKey, lookupKey, h2, fun h : k0 = k => h0 h]
        · simp [setKey, lookupKey, h0, h1, ih]

theorem lookupKey_none_any (fs : List (String × JV)) (k : String) :
    (fs.any (fun p => p.1 == k)) = (lookupKey fs k).isSome := by
  induction fs with
  | nil => simp [lookupKey]
  | cons p rest ih =>
      obtain ⟨k0, v0⟩ := p
      by_cases h : k0 = k
      · simp [lookupKey, h]
      · simp [lookupKey, h, ih]

theorem removeKey_setKey_self (fs : List (String × JV)) (k : String) (v : JV) :
    removeKey (setKey fs k v) k = removeKey fs k := by
  induction fs with
  | nil => simp [setKey, removeKey]
  | cons p rest ih =>
      obtain ⟨k0, v0⟩ := p
      by_cases h : k0 = k
      · subst h; simp [setKey, removeKey]
      · simp [setKey, removeKey, h, ih]

theorem removeKey_setKey_ne (fs : List (String × JV)) (k k' : String) (v : JV)
    (hne : k ≠ k') :
    removeKey (setKey fs k v) k' = setKey (removeKey fs k') k v := by
  induction fs with
  | nil => simp [setKey, removeKey, hne]
  | cons p rest ih =>
      obtain ⟨k0, v0⟩ := p
      by_cases h : k0 = k
      · subst h
        simp [setKey, removeKey, hne, ih]
      · by_cases h1 : k0 = k'
        · subst h1; simp [setKey, removeKey, h, ih]
        · simp [setKey, removeKey, h, h1, ih]

theorem removeKey_eq_self (fs : List (String × JV)) (k : String)
    (h : lookupKey fs k = none) : removeKey fs k = fs := by
  induction fs with
  | nil => simp [removeKey]
  | cons p rest ih =>
      obtain ⟨k0, v0⟩ := p
      by_cases h0 : k0 = k
      · subst h0; simp [lookupKey] at h
      · simp [lookupKey, h0] at h
        simp [removeKey, h0, ih h]

theorem setKey_ne_nil (fs : List (String × JV)) (k : String) (v : JV) :
    setKey fs k v ≠ [] := by
  cases fs with
  | nil => simp [setKey]
  | cons p rest =>
      obtain ⟨k0, v0⟩ := p
      by_cases h : k0 = k <;> simp [setKey, h]

theorem exceptMap_forall2 {α : Type} {f : JV → Except PyErr α} :
    ∀ {xs : List JV} {ys : List α}, exceptMap f xs = .ok ys →
      List.Forall₂ (fun x y => f x = .ok y) xs ys := by
  intro xs
  induction xs with
  | nil =>
      intro ys h
      simp [exceptMap] at h
      subst h; exact .nil
  | cons x rest ih =>
      intro ys h
      simp only [exceptMap] at h
      cases hf : f x with
      | error e => rw [hf] at h; exact absurd h (by simp)
      | ok y =>
          rw [hf] at h
          cases hr : exceptMap f rest with
          | error e => rw [hr] at h; exact absurd h (by simp)
          | ok ys' =>
              rw [hr] at h
              simp at h
              subst h
              exact .cons hf (ih hr)

theorem exceptMap_map {α : Type} {f : JV → Except PyErr α} {g : JV → α}
    {xs : List JV} (h : ∀ x ∈ xs, f x = .ok (g x)) :
    exceptMap f xs = .ok (xs.map g) := by
  induction xs with
  | nil => simp [exceptMap]
  | cons x rest ih =>
      have hx := h x (by simp)
      have hr := ih (fun a ha => h a (by simp [ha]))
      simp [exceptMap, hx, hr]

/-! ### Pipeline structure lemmas -/

theorem converter_convert_ok_iff (st : ConvSt) (m : JV) :
    (converter_convert st).2 = .ok m ↔
      ∃ base m1, buildBase st.v3 st.override = .ok base ∧
        applyThumb st.v3 base = .ok m1 ∧ applyBehavior st.v3 m1 = .ok m := by
  unfold converter_convert
  cases hb : buildBase st.v3 st.override with
  | error e => simp [hb]
  | ok base =>
      cases ht : applyThumb st.v3 base with
      | error e => simp [hb, ht]
      | ok m1 =>
          cases ha : applyBehavior st.v3 m1 with
          | error e => simp [hb, ht, ha]
          | ok m2 => simp [hb, ht, ha, eq_comm]

theorem downgrade_convert_ok_iff (st : ConvSt) (m : JV) :
    (downgrade_convert st).2 = .ok m ↔
      ∃ base, buildBase st.v3 st.override = .ok base ∧
        applyBehavior st.v3 base = .ok m := by
  unfold downgrade_convert
  cases hb : buildBase st.v3 st.override with
  | error e => simp [hb]
  | ok base =>
      cases ha : applyBehavior st.v3 base with
      | error e => simp [hb, ha]
      | ok m2 => simp [hb, ha, eq_comm]

theorem converter_convert_pair_ok (st st' : ConvSt) (m : JV)
    (h : converter_convert st = (st', .ok m)) : st'.v2 = some m := by
  unfold converter_convert at h
  split at h
  · exact absurd (congrArg Prod.snd h) (by simp)
  · split at h
    · exact absurd (congrArg Prod.snd h) (by simp)
    · split at h
      · exact absurd (congrArg Prod.snd h) (by simp)
      · have h1 := congrArg (fun p => (Prod.fst p).v2) h
        have h2 := congrArg Prod.snd h
        simp at h1 h2
        rw [← h1, h2]

theorem downgrade_convert_pair_ok (st st' : ConvSt) (m : JV)
    (h : downgrade_convert st = (st', .ok m)) : st'.v2 = some m := by
  unfold downgrade_convert at h
  split at h
  · exact absurd (congrArg Prod.snd h) (by simp)
  · split at h
    · exact absurd (congrArg Prod.snd h) (by simp)
    · have h1 := congrArg (fun p => (Prod.fst p).v2) h
      have h2 := congrArg Prod.snd h
      simp at h1 h2
      rw [← h1, h2]

theorem converter_convert_state (st : ConvSt) (m : JV)
    (h : (converter_convert st).2 = .ok m) :
    (converter_convert st).1.v2 = some m := by
  have hp : converter_convert st = ((converter_convert st).1, (converter_convert st).2) := rfl
  rw [h] at hp
  exact converter_convert_pair_ok st _ m hp

theorem downgrade_convert_state (st : ConvSt) (m : JV)
    (h : (downgrade_convert st).2 = .ok m) :
    (downgrade_convert st).1.v2 = some m := by
  have hp : downgrade_convert st = ((downgrade_convert st).1, (downgrade_convert st).2) := rfl
  rw [h] at hp
  exact downgrade_convert_pair_ok st _ m hp

/-- The field list of the envelope dict literal of `convert`. -/
def baseObj (mid lab md cs : JV) : List (String × JV) :=
  [("@context", .str "http://iiif.io/api/presentation/2/context.json"),
   ("@type", .str "sc:Manifest"), ("@id", mid), ("label", lab),
   ("metadata", md),
   ("sequences", .arr [.obj [("@type", .str "sc:Sequence"), ("canvases", cs)]])]

theorem buildBase_shape (v3 : JV) (ov : Option JV) (base : JV)
    (h : buildBase v3 ov = .ok base) :
    ∃ mid lab md cs, resolveId ov v3 = .ok mid ∧
      base = .obj (baseObj mid lab md cs) := by
  unfold buildBase at h
  split at h
  · simp at h
  · rename_i mid hmid
    split at h
    · simp at h
    · split at h
      · simp at h
      · rename_i lab hlab
        split at h
        · simp at h
        · split at h
          · simp at h
          · rename_i md hmd
            split at h
            · simp at h
            · split at h
              · simp at h
              · rename_i cs hcs
                simp at h
                exact ⟨mid, lab, md, cs, hmid, h.symm⟩

theorem applyThumb_shape (v3 : JV) (bs : List (String × JV)) (m1 : JV)
    (h : applyThumb v3 (.obj bs) = .ok m1) :
    m1 = .obj bs ∨ ∃ th, m1 = .obj (setKey bs "thumbnail" th) := by
  unfold applyThumb at h
  split at h
  · simp at h
  · split at h
    · simp at h
    · split at h
      · split at h
        · simp at h
        · simp at h; exact .inl h.symm
        · split at h
          · simp at h
          · split at h
            · simp at h
            · rename_i thumb hthumb
              split at h
              · simp [setItem] at h
                exact .inr ⟨thumb, h.symm⟩
              · simp at h; exact .inl h.symm
      · simp at h; exact .inl h.symm

theorem applyBehavior_split (v3 : JV) :
    (∀ m, applyBehavior v3 m = .ok m) ∨
    (∃ x, ∀ m, applyBehavior v3 m = setItem m "viewingHint" x) ∨
    (∃ e, ∀ m, applyBehavior v3 m = .error e) := by
  cases hb : pyGetD v3 "behavior" (.str "") with
  | error e =>
      right; right
      exact ⟨e, fun m => by unfold applyBehavior; rw [hb]⟩
  | ok b =>
      by_cases hne : neEmptyStr b = true
      · cases hg : pyGet v3 "behavior" with
        | error e =>
            right; right
            exact ⟨e, fun m => by unfold applyBehavior; rw [hb]; simp [hne, hg]⟩
        | ok b2 =>
            cases hi : pyIndex0 b2 with
            | error e =>
                right; right
                exact ⟨e, fun m => by unfold applyBehavior; rw [hb]; simp [hne, hg, hi]⟩
            | ok x =>
                right; left
                exact ⟨x, fun m => by unfold applyBehavior; rw [hb]; simp [hne, hg, hi]⟩
      · left
        intro m
        unfold applyBehavior
        rw [hb]
        simp only [Bool.not_eq_true] at hne
        simp [hne]

theorem applyBehavior_cons (fs : List (String × JV)) (x : JV) (rest : List JV) (m : JV)
    (h : lookupKey fs "behavior" = some (.arr (x :: rest))) :
    applyBehavior (.obj fs) m = setItem m "viewingHint" x := by
  unfold applyBehavior
  simp [pyGetD, pyGet, h, neEmptyStr, pyIndex0]

theorem applyBehavior_absent (fs : List (String × JV)) (m : JV)
    (h : lookupKey fs "behavior" = none) :
    applyBehavior (.obj fs) m = .ok m := by
  unfold applyBehavior
  simp [pyGetD, h, neEmptyStr]

theorem applyBehavior_emptyList (fs : List (String × JV)) (m : JV)
    (h : lookupKey fs "behavior" = some (.arr [])) :
    applyBehavior (.obj fs) m = .error .indexError := by
  unfold applyBehavior
  simp [pyGetD, pyGet, h, neEmptyStr, pyIndex0]

theorem baseObj_lookup_id (mid lab md cs : JV) :
    lookupKey (baseObj mid lab md cs) "@id" = some mid := rfl

theorem baseObj_lookup_viewingHint (mid lab md cs : JV) :
    lookupKey (baseObj mid lab md cs) "viewingHint" = none := rfl

theorem baseObj_lookup_thumbnail (mid lab md cs : JV) :
    lookupKey (baseObj mid lab md cs) "thumbnail" = none := rfl

theorem baseObj_ne_nil (mid lab md cs : JV) : baseObj mid lab md cs ≠ [] := by
  simp [baseObj]

theorem resolveId_obj (ov : Option JV) (fs : List (String × JV)) :
    resolveId ov (.obj fs) = .ok (specResolvedId ov fs) := by
  cases ov with
  | none => simp [resolveId, specResolvedId, pyGet, pyGetD]
  | some o =>
      by_cases h : truthy o = true <;>
        simp [resolveId, specResolvedId, pyGet, pyGetD, h]

theorem applyThumb_preserves (v3 : JV) (bs : List (String × JV)) (m1 : JV)
    (h : applyThumb v3 (.obj bs) = .ok m1) :
    ∃ ms1, m1 = .obj ms1 ∧ removeKey ms1 "thumbnail" = removeKey bs "thumbnail" ∧
      (∀ k, k ≠ "thumbnail" → lookupKey ms1 k = lookupKey bs k) ∧
      (bs ≠ [] → ms1 ≠ []) := by
  rcases applyThumb_shape v3 bs m1 h with h1 | ⟨th, h1⟩
  · exact ⟨bs, h1, rfl, fun k _ => rfl, fun hh => hh⟩
  · refine ⟨setKey bs "thumbnail" th, h1, removeKey_setKey_self bs "thumbnail" th,
      ?_, fun _ => setKey_ne_nil bs "thumbnail" th⟩
    intro k hk
    rw [lookupKey_setKey]
    simp [hk]

/-! ### Claim C4 — Label Resolver -/

/-- C4 (amended): on any non-mapping the Label Resolver returns `""`; on a
mapping all of whose values are sequences it returns the first element of the
first key (in insertion order) whose sequence is non-empty, and `""` when no
key has one — and on such inputs it never raises.  (The original claim's
"for every input value m ... never raises" fails: a truthy non-sequence
value makes `values[0]` raise `TypeError`, see the counterexample.) -/
theorem label_resolver_first_nonempty :
    (∀ v, isObj v = false → label_to_v2 v = .ok (.str "")) ∧
    (∀ fs : List (String × JV), (∀ p ∈ fs, ∃ xs, p.2 = JV.arr xs) →
      label_to_v2 (.obj fs) = .ok (specFirstLabel fs)) := by
  constructor
  · intro v hv
    cases v with
    | obj fs => simp [isObj] at hv
    | null => rfl
    | bool b => rfl
    | num n => rfl
    | str s => rfl
    | arr xs => rfl
  · intro fs hfs
    simp only [label_to_v2]
    induction fs with
    | nil => rfl
    | cons p rest ih =>
        obtain ⟨k, v⟩ := p
        obtain ⟨xs, hxs⟩ := hfs (k, v) (by simp)
        simp only at hxs
        subst hxs
        cases xs with
        | nil =>
            simp only [labelGo, specFirstLabel, truthy, List.isEmpty_nil,
              Bool.not_true, if_neg]
            exact ih (fun q hq => hfs q (by simp [hq]))
        | cons x xt =>
            simp [labelGo, specFirstLabel, truthy, pyIndex0]

/-- C4 counterexample: on the mapping `{"en": 5}` (a truthy, non-indexable
value) `_label_to_v2` raises `TypeError` from `values[0]`, contradicting
"it never raises" for every input value. -/
theorem label_resolver_raises_cex :
    label_to_v2 (.obj [("en", .num 5)]) = .error .typeError := rfl

/-- C4 witness: the amended theorem applied to the language map
`{"de": [], "en": ["Title", "T2"]}` yields `"Title"`. -/
theorem label_resolver_first_nonempty_witness :
    label_to_v2 (.obj [("de", .arr []), ("en", .arr [.str "Title", .str "T2"])]) =
      .ok (specFirstLabel [("de", .arr []), ("en", .arr [.str "Title", .str "T2"])]) ∧
    specFirstLabel [("de", .arr []), ("en", .arr [.str "Title", .str "T2"])] = .str "Title" :=
  ⟨label_resolver_first_nonempty.2 _
      (by intro p hp; simp at hp; rcases hp with rfl | rfl <;> exact ⟨_, rfl⟩),
   rfl⟩

/-! ### Claim C7 — Thumbnail Mapper first-element law -/

/-- C7 (amended): the Thumbnail Mapper returns the "no thumbnail" signal
(`None`) on any falsy input (absent, `[]`, `{}`, `""`); and for a sequence
whose first element is a *non-empty mapping* `t`, mapping `[t, t2, ...]` is
the same as mapping `t` alone.  (The unamended first-element law fails when
`t` itself is falsy, e.g. `t = {}`: see the counterexample.) -/
theorem thumbnail_first_element_law :
    (∀ v, truthy v = false → thumbnail_to_v2 v = .ok .null) ∧
    (∀ tfs : List (String × JV), ∀ rest : List JV, tfs ≠ [] →
      thumbnail_to_v2 (.arr (JV.obj tfs :: rest)) = thumbnail_to_v2 (.obj tfs)) := by
  constructor
  · intro v hv
    simp [thumbnail_to_v2, hv]
  · intro tfs rest hne
    have h1 : truthy (.arr (JV.obj tfs :: rest)) = true := by simp [truthy]
    have h2 : truthy (.obj tfs) = true := by simp [truthy, hne]
    simp [thumbnail_to_v2, h1, h2, pyIndex0]

/-- C7 counterexample: `ThumbnailMapper([{}, t2]) ≠ ThumbnailMapper({})` —
the sequence form strips the list and builds
`{"@id": None, "service": None}` from the falsy first element, while the
direct form short-circuits to the "no thumbnail" signal. -/
theorem thumbnail_first_element_cex :
    thumbnail_to_v2 (.arr [.obj [], .obj [("id", .str "t2")]]) ≠
      thumbnail_to_v2 (.obj []) := by
  intro h
  have h1 : thumbnail_to_v2 (.arr [.obj [], .obj [("id", .str "t2")]]) =
      .ok (.obj [("@id", .null), ("service", .null)]) := rfl
  have h2 : thumbnail_to_v2 (.obj []) = .ok .null := rfl
  rw [h1, h2] at h
  simp at h

/-- C7 witness: `ThumbnailMapper(None)` is the no-thumbnail signal, and
the first-element law at a concrete two-element thumbnail sequence. -/
theorem thumbnail_first_element_witness :
    thumbnail_to_v2 .null = .ok .null ∧
    thumbnail_to_v2 (.arr [.obj [("id", .str "t")], .obj [("id", .str "t2")]]) =
      thumbnail_to_v2 (.obj [("id", .str "t")]) :=
  ⟨thumbnail_first_element_law.1 .null rfl,
   thumbnail_first_element_law.2 [("id", .str "t")] [.obj [("id", .str "t2")]] (by simp)⟩

/-! ### Claim C6 — Thumbnail Mapper service descriptor -/

/-- C6: for a thumbnail object whose `service` is a non-empty sequence with a
mapping head, the output service descriptor pins `profile` to the v2 level-0
URI and the v2 image-API `@context`, takes `label` from the first service
element defaulting to "IIIF Image Service", and `@id` from the first
element's `id`; when `service` is absent or the empty sequence, the service
descriptor is `None` (the absent marker), not an empty object. -/
theorem thumbnail_service_level0 (tfs : List (String × JV)) (hne : tfs ≠ []) :
    (∀ sfs : List (String × JV), ∀ rest : List JV,
      lookupKey tfs "service" = some (.arr (JV.obj sfs :: rest)) →
      thumbnail_to_v2 (.obj tfs) =
        .ok (.obj [("@id", (lookupKey tfs "id").getD .null),
          ("service", .obj [
            ("label", (lookupKey sfs "label").getD (.str "IIIF Image Service")),
            ("profile", .str "http://iiif.io/api/image/2/level0.json"),
            ("@context", .str "http://iiif.io/api/image/2/context.json"),
            ("@id", (lookupKey sfs "id").getD .null)])])) ∧
    ((lookupKey tfs "service" = none ∨ lookupKey tfs "service" = some (.arr [])) →
      thumbnail_to_v2 (.obj tfs) =
        .ok (.obj [("@id", (lookupKey tfs "id").getD .null), ("service", .null)])) := by
  have htr : truthy (.obj tfs) = true := by simp [truthy, hne]
  constructor
  · intro sfs rest h
    have hany : (tfs.any fun p => p.1 == "service") = true := by
      rw [lookupKey_none_any, h]; rfl
    simp [thumbnail_to_v2, htr, thumbCore, thumbService, pyContains, hany,
      pySubscript, h, truthy, pyIndex0, pyGetD, pyGet, hne]
  · intro h
    rcases h with h | h
    · have hany : (tfs.any fun p => p.1 == "service") = false := by
        rw [lookupKey_none_any, h]; rfl
      simp [thumbnail_to_v2, htr, thumbCore, thumbService, pyContains, hany,
        pyGet, pyGetD]
    · have hany : (tfs.any fun p => p.1 == "service") = true := by
        rw [lookupKey_none_any, h]; rfl
      simp [thumbnail_to_v2, htr, thumbCore, thumbService, pyContains, hany,
        pySubscript, h, truthy, pyGet, pyGetD, hne]

/-- C6 witness: a concrete thumbnail whose v3 service declares
`ImageService3 / level1` still comes out pinned to the v2 level-0 profile,
and one with `service: []` gets the `None` service descriptor. -/
theorem thumbnail_service_level0_witness :
    thumbnail_to_v2 (.obj [("id", .str "u"),
        ("service", .arr [.obj [("id", .str "s"), ("type", .str "ImageService3"),
          ("profile", .str "level1")]])]) =
      .ok (.obj [("@id", .str "u"),
        ("service", .obj [("label", .str "IIIF Image Service"),
          ("profile", .str "http://iiif.io/api/image/2/level0.json"),
          ("@context", .str "http://iiif.io/api/image/2/context.json"),
          ("@id", .str "s")])]) ∧
    thumbnail_to_v2 (.obj [("id", .str "u"), ("service", .arr [])]) =
      .ok (.obj [("@id", .str "u"), ("service", .null)]) :=
  ⟨(thumbnail_service_level0 [("id", .str "u"),
        ("service", .arr [.obj [("id", .str "s"), ("type", .str "ImageService3"),
          ("profile", .str "level1")]])] (by simp)).1
      [("id", .str "s"), ("type", .str "ImageService3"), ("profile", .str "level1")] [] rfl,
   (thumbnail_service_level0 [("id", .str "u"), ("service", .arr [])] (by simp)).2
      (.inr rfl)⟩

/-! ### Claim C3 — Annotation Mapper -/

theorem annoImage_ok (cfs : List (String × JV)) (a : JV) (h : bodyOk a) :
    annoImage (.obj cfs) a =
      .ok (specImage ((lookupKey cfs "id").getD .null) a) := by
  obtain ⟨afs, rfl, hb⟩ := h
  have hbody : ∃ bfs, (lookupKey afs "body").getD (.obj []) = .obj bfs := by
    cases hc : lookupKey afs "body" with
    | none => exact ⟨[], rfl⟩
    | some b =>
        obtain ⟨bfs, rfl⟩ := hb b hc
        exact ⟨bfs, rfl⟩
  obtain ⟨bfs, hbfs⟩ := hbody
  unfold annoImage
  simp [pyGetD, pyGet, hbfs, specImage, specBodyField]

theorem pageImages_ok (cfs : List (String × JV)) (p : JV) (h : pageOk p) :
    pageImages (.obj cfs) p =
      .ok ((pageAnnos p).map (specImage ((lookupKey cfs "id").getD .null))) := by
  obtain ⟨pfs, rfl, annos, hannos, hall⟩ := h
  have hpa : pageAnnos (.obj pfs) = annos := by simp [pageAnnos, hannos]
  unfold pageImages
  simp [pyGetD, hannos, pyIter, hpa]
  exact exceptMap_map (fun a ha => annoImage_ok cfs a (hall a ha))

/-- C3: for a canvas whose `items` (default `[]`) is a sequence of
well-shaped annotation pages, the Annotation Mapper returns (without error)
the flat list obtained page-major then within-page (`flatten` of the
per-page annotation lists, in order); each entry is the v2 image annotation
carrying the body's `id`/`format`/`height`/`width` verbatim in `resource`
and the enclosing canvas's `id` in `on`; its length is the total annotation
count over all pages (zero for an empty or absent page list). -/
theorem annotation_mapper_flattens (cfs : List (String × JV)) (ps : List JV)
    (hitems : (lookupKey cfs "items").getD (.arr []) = .arr ps)
    (hps : ∀ p ∈ ps, pageOk p) :
    annotations_to_v2 (.obj cfs) =
      .ok (.arr ((ps.map pageAnnos).flatten.map
        (specImage ((lookupKey cfs "id").getD .null)))) ∧
    ((ps.map pageAnnos).flatten.map
        (specImage ((lookupKey cfs "id").getD .null))).length =
      (ps.map (fun p => (pageAnnos p).length)).sum := by
  constructor
  · unfold annotations_to_v2
    simp only [pyGetD, hitems, pyIter]
    have hmap : exceptMap (pageImages (.obj cfs)) ps =
        .ok (ps.map (fun p =>
          (pageAnnos p).map (specImage ((lookupKey cfs "id").getD .null)))) :=
      exceptMap_map (fun p hp => pageImages_ok cfs p (hps p hp))
    simp only [hmap]
    have hflat : (ps.map (fun p =>
        (pageAnnos p).map (specImage ((lookupKey cfs "id").getD .null)))).flatten =
        (ps.map pageAnnos).flatten.map (specImage ((lookupKey cfs "id").getD .null)) := by
      rw [List.map_flatten, List.map_map]
      rfl
    rw [hflat]
  · simp [List.length_flatten, List.map_map, Function.comp_def, List.length_map]

/-- C3 witness: a canvas with two annotation pages (two annotations, then
one with all body fields absent) flattens to three image annotations in
page-major order, each targeting the canvas id. -/
theorem annotation_mapper_flattens_witness :
    annotations_to_v2 (.obj [("id", .str "c1"),
      ("items", .arr [
        .obj [("items", .arr [
          .obj [("body", .obj [("id", .str "i1"), ("format", .str "image/jpeg"),
            ("height", .num 100), ("width", .num 80)])],
          .obj [("body", .obj [("id", .str "i2")])]])],
        .obj [("items", .arr [.obj []])]])]) =
      .ok (.arr [
        .obj [("@type", .str "oa:Annotation"), ("motivation", .str "sc:painting"),
          ("resource", .obj [("@id", .str "i1"), ("@type", .str "dctypes:Image"),
            ("format", .str "image/jpeg"), ("height", .num 100), ("width", .num 80)]),
          ("on", .str "c1")],
        .obj [("@type", .str "oa:Annotation"), ("motivation", .str "sc:painting"),
          ("resource", .obj [("@id", .str "i2"), ("@type", .str "dctypes:Image"),
            ("format", .null), ("height", .null), ("width", .null)]),
          ("on", .str "c1")],
        .obj [("@type", .str "oa:Annotation"), ("motivation", .str "sc:painting"),
          ("resource", .obj [("@id", .null), ("@type", .str "dctypes:Image"),
            ("format", .null), ("height", .null), ("width", .null)]),
          ("on", .str "c1")]]) :=
  (annotation_mapper_flattens [("id", .str "c1"),
      ("items", .arr [
        .obj [("items", .arr [
          .obj [("body", .obj [("id", .str "i1"), ("format", .str "image/jpeg"),
            ("height", .num 100), ("width", .num 80)])],
          .obj [("body", .obj [("id", .str "i2")])]])],
        .obj [("items", .arr [.obj []])]])]
    [.obj [("items", .arr [
        .obj [("body", .obj [("id", .str "i1"), ("format", .str "image/jpeg"),
          ("height", .num 100), ("width", .num 80)])],
        .obj [("body", .obj [("id", .str "i2")])]])],
     .obj [("items", .arr [.obj []])]]
    rfl
    (by
      intro p hp
      simp at hp
      rcases hp with rfl | rfl
      · refine ⟨_, rfl, _, rfl, ?_⟩
        intro a ha
        simp at ha
        rcases ha with rfl | rfl
        · exact ⟨_, rfl, fun b hb => ⟨_, (Option.some.inj hb).symm⟩⟩
        · exact ⟨_, rfl, fun b hb => ⟨_, (Option.some.inj hb).symm⟩⟩
      · refine ⟨_, rfl, _, rfl, ?_⟩
        intro a ha
        simp at ha
        subst ha
        exact ⟨_, rfl, fun b hb => by simp [lookupKey] at hb⟩)).1

/-! ### Claim C5 — Canvas Mapper -/

theorem Forall2_get {α : Type} {R : JV → α → Prop} :
    ∀ {xs : List JV} {ys : List α}, List.Forall₂ R xs ys →
      ∀ i (hx : i < xs.length) (hy : i < ys.length),
        R (xs.get ⟨i, hx⟩) (ys.get ⟨i, hy⟩) := by
  intro xs ys h
  induction h with
  | nil => intro i hx hy; simp at hx
  | cons h1 h2 ih =>
      intro i hx hy
      cases i with
      | zero => exact h1
      | succ n => exact ih n (by simpa using hx) (by simpa using hy)

theorem canvasToV2_shape (c o : JV) (h : canvasToV2 c = .ok o) :
    ∃ cfs lab imgs, c = .obj cfs ∧
      o = .obj [("@id", (lookupKey cfs "id").getD .null), ("@type", .str "sc:Canvas"),
        ("label", lab), ("height", (lookupKey cfs "height").getD .null),
        ("width", (lookupKey cfs "width").getD .null), ("images", imgs)] := by
  cases c with
  | obj cfs =>
      unfold canvasToV2 at h
      simp only [pyGet, pyGetD] at h
      split at h
      · simp at h
      · rename_i lab hlab
        split at h
        · simp at h
        · rename_i imgs himgs
          simp at h
          exact ⟨cfs, lab, imgs, rfl, h.symm⟩
  | null => simp [canvasToV2, pyGet, pyGetD] at h
  | bool b => simp [canvasToV2, pyGet, pyGetD] at h
  | num n => simp [canvasToV2, pyGet, pyGetD] at h
  | str s => simp [canvasToV2, pyGet, pyGetD] at h
  | arr xs => simp [canvasToV2, pyGet, pyGetD] at h

/-- C5: when the Canvas Mapper returns on a sequence of canvases, it returns
a sequence of the same length in the same order, and the i-th output canvas's
`@id`, `height` and `width` are the i-th input canvas's `id`, `height` and
`width` copied verbatim (with `None` standing for an absent field). -/
theorem canvas_mapper_preserves (xs outs : List JV)
    (h : canvases_to_v2 (.arr xs) = .ok (.arr outs)) :
    outs.length = xs.length ∧
    ∀ i (hx : i < xs.length) (ho : i < outs.length),
      ∃ cfs lab imgs, xs.get ⟨i, hx⟩ = .obj cfs ∧
        outs.get ⟨i, ho⟩ = .obj [("@id", (lookupKey cfs "id").getD .null),
          ("@type", .str "sc:Canvas"), ("label", lab),
          ("height", (lookupKey cfs "height").getD .null),
          ("width", (lookupKey cfs "width").getD .null), ("images", imgs)] := by
  unfold canvases_to_v2 at h
  simp only [pyIter] at h
  cases hm : exceptMap canvasToV2 xs with
  | error e => rw [hm] at h; simp at h
  | ok cs =>
      rw [hm] at h
      simp at h
      subst h
      have hf := exceptMap_forall2 hm
      refine ⟨(List.Forall₂.length_eq hf).symm, ?_⟩
      intro i hx ho
      exact canvasToV2_shape _ _ (Forall2_get hf i hx ho)

/-- C5 witness: one concrete canvas maps to one v2 canvas with identical
`@id`, `height`, `width`; the theorem instantiated at that input/output
pair confirms the length and field equalities. -/
theorem canvas_mapper_preserves_witness :
    canvases_to_v2 (.arr [.obj [("id", .str "c1"),
        ("label", .obj [("en", .arr [.str "Page 1"])]),
        ("height", .num 100), ("width", .num 80)]]) =
      .ok (.arr [.obj [("@id", .str "c1"), ("@type", .str "sc:Canvas"),
        ("label", .str "Page 1"), ("height", .num 100), ("width", .num 80),
        ("images", .arr [])]]) ∧
    ([JV.obj [("@id", .str "c1"), ("@type", .str "sc:Canvas"),
        ("label", .str "Page 1"), ("height", .num 100), ("width", .num 80),
        ("images", .arr [])]].length =
      [JV.obj [("id", .str "c1"), ("label", .obj [("en", .arr [.str "Page 1"])]),
        ("height", .num 100), ("width", .num 80)]].length) :=
  ⟨rfl,
   (canvas_mapper_preserves
      [.obj [("id", .str "c1"), ("label", .obj [("en", .arr [.str "Page 1"])]),
        ("height", .num 100), ("width", .num 80)]]
      [.obj [("@id", .str "c1"), ("@type", .str "sc:Canvas"),
        ("label", .str "Page 1"), ("height", .num 100), ("width", .num 80),
        ("images", .arr [])]]
      rfl).1⟩

/-! ### Claim C1 — behavior / viewingHint -/

theorem truthy_obj (fs : List (String × JV)) (h : fs ≠ []) :
    truthy (.obj fs) = true := by
  simp [truthy, h]

/-- C1 (amended): when `behavior` is a non-empty sequence, any successful
convert() output carries `viewingHint` equal to its first element; when
`behavior` is absent, a successful output has no `viewingHint` key and the
behavior block is the identity (convert never fails because of the missing
field); but when `behavior` is present as an *empty* sequence, convert()
never succeeds — `v3.get("behavior")[0]` raises `IndexError` (see the
counterexample), contrary to the claim's "absent or empty" clause. -/
theorem behavior_viewing_hint (fs : List (String × JV)) (ov : Option JV) :
    (∀ x : JV, ∀ rest : List JV, ∀ m : JV,
      lookupKey fs "behavior" = some (.arr (x :: rest)) →
      (converter_convert ⟨.obj fs, ov, none⟩).2 = .ok m →
      ∃ ms, m = .obj ms ∧ lookupKey ms "viewingHint" = some x) ∧
    (lookupKey fs "behavior" = none →
      (∀ m, (converter_convert ⟨.obj fs, ov, none⟩).2 = .ok m →
        ∃ ms, m = .obj ms ∧ lookupKey ms "viewingHint" = none) ∧
      (∀ m1, applyBehavior (.obj fs) m1 = .ok m1)) ∧
    (lookupKey fs "behavior" = some (.arr []) →
      ∀ m, (converter_convert ⟨.obj fs, ov, none⟩).2 ≠ .ok m) := by
  refine ⟨?_, ?_, ?_⟩
  · intro x rest m hb hok
    rcases (converter_convert_ok_iff _ _).1 hok with ⟨base, m1, hbase, hthumb, hbeh⟩
    obtain ⟨mid, lab, md, cs, hmid, rfl⟩ := buildBase_shape _ _ _ hbase
    obtain ⟨ms1, rfl, hrm, hlk, hnn⟩ := applyThumb_preserves _ _ _ hthumb
    rw [applyBehavior_cons fs x rest _ hb] at hbeh
    simp [setItem] at hbeh
    refine ⟨setKey ms1 "viewingHint" x, hbeh.symm, ?_⟩
    rw [lookupKey_setKey]
    simp
  · intro hb
    constructor
    · intro m hok
      rcases (converter_convert_ok_iff _ _).1 hok with ⟨base, m1, hbase, hthumb, hbeh⟩
      obtain ⟨mid, lab, md, cs, hmid, rfl⟩ := buildBase_shape _ _ _ hbase
      obtain ⟨ms1, rfl, hrm, hlk, hnn⟩ := applyThumb_preserves _ _ _ hthumb
      rw [applyBehavior_absent fs _ hb] at hbeh
      simp at hbeh
      refine ⟨ms1, hbeh.symm, ?_⟩
      rw [hlk "viewingHint" (by decide)]
      exact baseObj_lookup_viewingHint mid lab md cs
    · intro m1
      exact applyBehavior_absent fs m1 hb
  · intro hb m hok
    rcases (converter_convert_ok_iff _ _).1 hok with ⟨base, m1, hbase, hthumb, hbeh⟩
    rw [applyBehavior_emptyList fs _ hb] at hbeh
    simp at hbeh

/-- C1 counterexample: with `behavior` present as the empty sequence `[]`,
`v3.get("behavior", "") != ""` is true (a list is never equal to `""`) and
`v3.get("behavior")[0]` raises `IndexError` in both variants — convert()
does fail on an empty `behavior` sequence. -/
theorem behavior_empty_raises_cex :
    (converter_convert ⟨.obj [("behavior", .arr [])], none, none⟩).2 =
      .error .indexError ∧
    (downgrade_convert ⟨.obj [("behavior", .arr [])], none, none⟩).2 =
      .error .indexError := ⟨rfl, rfl⟩

/-- C1 witness: `behavior = ["paged"]` yields `viewingHint = "paged"` on the
concrete converted manifest. -/
theorem behavior_viewing_hint_witness :
    (converter_convert ⟨.obj [("behavior", .arr [.str "paged"])], none, none⟩).2 =
      .ok (.obj [("@context", .str "http://iiif.io/api/presentation/2/context.json"),
        ("@type", .str "sc:Manifest"), ("@id", .null), ("label", .str ""),
        ("metadata", .arr []),
        ("sequences", .arr [.obj [("@type", .str "sc:Sequence"), ("canvases", .arr [])]]),
        ("viewingHint", .str "paged")]) ∧
    (∃ ms, (JV.obj [("@context", .str "http://iiif.io/api/presentation/2/context.json"),
        ("@type", .str "sc:Manifest"), ("@id", .null), ("label", .str ""),
        ("metadata", .arr []),
        ("sequences", .arr [.obj [("@type", .str "sc:Sequence"), ("canvases", .arr [])]]),
        ("viewingHint", .str "paged")]) = .obj ms ∧
      lookupKey ms "viewingHint" = some (.str "paged")) :=
  ⟨rfl, (behavior_viewing_hint [("behavior", .arr [.str "paged"])] none).1
      (.str "paged") [] _ rfl rfl⟩

/-! ### Claim C2 — the two source variants -/

/-- C2 (amended): whenever the thumbnail-attaching variant's convert()
succeeds, deleting the `thumbnail` key from its output yields exactly the
other variant's output (all other top-level fields equal, in the same
order); but the variants do **not** succeed on the same inputs: on
`{"items": []}` the thumbnail-attaching variant raises `IndexError` while
the other succeeds (see the counterexample). -/
theorem variants_agree_modulo_thumbnail (fs : List (String × JV)) (ov : Option JV)
    (m : JV) (h : (converter_convert ⟨.obj fs, ov, none⟩).2 = .ok m) :
    ∃ ms, m = .obj ms ∧
      (downgrade_convert ⟨.obj fs, ov, none⟩).2 =
        .ok (.obj (removeKey ms "thumbnail")) := by
  rcases (converter_convert_ok_iff _ _).1 h with ⟨base, m1, hbase, hthumb, hbeh⟩
  obtain ⟨mid, lab, md, cs, hmid, rfl⟩ := buildBase_shape _ _ _ hbase
  obtain ⟨ms1, rfl, hrm, hlk, hnn⟩ := applyThumb_preserves _ _ _ hthumb
  have hbase_nothumb : removeKey (baseObj mid lab md cs) "thumbnail" =
      baseObj mid lab md cs :=
    removeKey_eq_self _ _ (baseObj_lookup_thumbnail mid lab md cs)
  rcases applyBehavior_split (JV.obj fs) with hid | ⟨x, hset⟩ | ⟨e, herr⟩
  · rw [hid] at hbeh
    simp at hbeh
    refine ⟨ms1, hbeh.symm, ?_⟩
    rw [hrm.trans hbase_nothumb]
    exact (downgrade_convert_ok_iff _ _).2 ⟨_, hbase, hid _⟩
  · rw [hset] at hbeh
    simp [setItem] at hbeh
    refine ⟨setKey ms1 "viewingHint" x, hbeh.symm, ?_⟩
    rw [removeKey_setKey_ne ms1 "viewingHint" "thumbnail" x (by decide),
      hrm.trans hbase_nothumb]
    refine (downgrade_convert_ok_iff _ _).2 ⟨_, hbase, ?_⟩
    rw [hset]
    simp [setItem]
  · rw [herr] at hbeh
    simp at hbeh

/-- C2 counterexample: on `{"items": []}` the thumbnail-attaching variant
raises `IndexError` at `v3.get("items", [None])[0]` while the variant
without thumbnail handling returns a manifest with zero canvases — the two
variants do not succeed on the same inputs. -/
theorem variants_diverge_cex :
    (converter_convert ⟨.obj [("items", .arr [])], none, none⟩).2 =
      .error .indexError ∧
    (downgrade_convert ⟨.obj [("items", .arr [])], none, none⟩).2 =
      .ok (.obj [("@context", .str "http://iiif.io/api/presentation/2/context.json"),
        ("@type", .str "sc:Manifest"), ("@id", .null), ("label", .str ""),
        ("metadata", .arr []),
        ("sequences", .arr [.obj [("@type", .str "sc:Sequence"),
          ("canvases", .arr [])]])]) := ⟨rfl, rfl⟩

/-- C2 witness: a manifest whose first canvas carries a thumbnail — the
thumbnail-attaching output minus its `thumbnail` key is exactly the other
variant's output. -/
theorem variants_agree_modulo_thumbnail_witness :
    (converter_convert ⟨.obj [("id", .str "m1"),
        ("items", .arr [.obj [("id", .str "c1"),
          ("thumbnail", .obj [("id", .str "t1")])]]),
        ("behavior", .arr [.str "paged"])], none, none⟩).2 =
      .ok (.obj [("@context", .str "http://iiif.io/api/presentation/2/context.json"),
        ("@type", .str "sc:Manifest"), ("@id", .str "m1"), ("label", .str ""),
        ("metadata", .arr []),
        ("sequences", .arr [.obj [("@type", .str "sc:Sequence"),
          ("canvases", .arr [.obj [("@id", .str "c1"), ("@type", .str "sc:Canvas"),
            ("label", .str ""), ("height", .null), ("width", .null),
            ("images", .arr [])]])]]),
        ("thumbnail", .obj [("@id", .str "t1"), ("service", .null)]),
        ("viewingHint", .str "paged")]) ∧
    (∃ ms, (JV.obj [("@context", .str "http://iiif.io/api/presentation/2/context.json"),
        ("@type", .str "sc:Manifest"), ("@id", .str "m1"), ("label", .str ""),
        ("metadata", .arr []),
        ("sequences", .arr [.obj [("@type", .str "sc:Sequence"),
          ("canvases", .arr [.obj [("@id", .str "c1"), ("@type", .str "sc:Canvas"),
            ("label", .str ""), ("height", .null), ("width", .null),
            ("images", .arr [])]])]]),
        ("thumbnail", .obj [("@id", .str "t1"), ("service", .null)]),
        ("viewingHint", .str "paged")]) = .obj ms ∧
      (downgrade_convert ⟨.obj [("id", .str "m1"),
          ("items", .arr [.obj [("id", .str "c1"),
            ("thumbnail", .obj [("id", .str "t1")])]]),
          ("behavior", .arr [.str "paged"])], none, none⟩).2 =
        .ok (.obj (removeKey ms "thumbnail"))) :=
  ⟨rfl, variants_agree_modulo_thumbnail [("id", .str "m1"),
      ("items", .arr [.obj [("id", .str "c1"),
        ("thumbnail", .obj [("id", .str "t1")])]]),
      ("behavior", .arr [.str "paged"])] none _ rfl⟩

/-! ### Claim C8 — override id -/

/-- C8: a successful convert() output's `@id` equals the override id when
that is provided and truthy (non-empty / non-`None`), else the v3
manifest's `id` (`None` when absent) — `specResolvedId` is exactly that
resolution rule. -/
theorem override_id_wins (fs : List (String × JV)) (ov : Option JV) (m : JV)
    (h : (converter_convert ⟨.obj fs, ov, none⟩).2 = .ok m) :
    ∃ ms, m = .obj ms ∧ lookupKey ms "@id" = some (specResolvedId ov fs) := by
  rcases (converter_convert_ok_iff _ _).1 h with ⟨base, m1, hbase, hthumb, hbeh⟩
  obtain ⟨mid, lab, md, cs, hmid, rfl⟩ := buildBase_shape _ _ _ hbase
  rw [resolveId_obj] at hmid
  have hmid2 : specResolvedId ov fs = mid := Except.ok.inj hmid
  obtain ⟨ms1, rfl, hrm, hlk, hnn⟩ := applyThumb_preserves _ _ _ hthumb
  rcases applyBehavior_split (JV.obj fs) with hid | ⟨x, hset⟩ | ⟨e, herr⟩
  · rw [hid] at hbeh
    simp at hbeh
    refine ⟨ms1, hbeh.symm, ?_⟩
    rw [hlk "@id" (by decide), baseObj_lookup_id, hmid2]
  · rw [hset] at hbeh
    simp [setItem] at hbeh
    refine ⟨setKey ms1 "viewingHint" x, hbeh.symm, ?_⟩
    rw [lookupKey_setKey]
    rw [if_neg (by decide)]
    rw [hlk "@id" (by decide), baseObj_lookup_id, hmid2]
  · rw [herr] at hbeh
    simp at hbeh

/-- C8 witness: a non-empty override id `"o1"` wins over the manifest's
`"m1"`, and with no override the manifest's own id is used. -/
theorem override_id_wins_witness :
    (converter_convert ⟨.obj [("id", .str "m1")], some (.str "o1"), none⟩).2 =
      .ok (.obj (baseObj (.str "o1") (.str "") (.arr []) (.arr []))) ∧
    (∃ ms, JV.obj (baseObj (.str "o1") (.str "") (.arr []) (.arr [])) = .obj ms ∧
      lookupKey ms "@id" = some (specResolvedId (some (.str "o1")) [("id", .str "m1")])) ∧
    (∃ ms, JV.obj (baseObj (.str "m1") (.str "") (.arr []) (.arr [])) = .obj ms ∧
      lookupKey ms "@id" = some (specResolvedId none [("id", .str "m1")])) :=
  ⟨rfl,
   override_id_wins [("id", .str "m1")] (some (.str "o1")) _ rfl,
   override_id_wins [("id", .str "m1")] none _ rfl⟩

/-! ### Claim C9 — save() gating -/

/-- C9 (amended): a fresh converter (no convert() call yet) always raises
`RuntimeError` from save(), and after a *successful* convert() save()
writes exactly the converted manifest; but the gate is really "is
`self.v2_manifest` assigned and truthy", not "did convert() succeed":
convert() assigns `self.v2_manifest` before its thumbnail/behavior blocks,
so a convert() that raises afterwards still lets save() write a manifest
(see the counterexample). -/
theorem save_requires_assigned_manifest :
    (∀ v3 ov, save ⟨v3, ov, none⟩ = .error .runtimeError) ∧
    (∀ st m, (converter_convert st).2 = .ok m →
      save (converter_convert st).1 = .ok m) ∧
    (∀ st m, (downgrade_convert st).2 = .ok m →
      save (downgrade_convert st).1 = .ok m) := by
  refine ⟨fun v3 ov => rfl, ?_, ?_⟩
  · intro st m h
    have hst := converter_convert_state st m h
    have htr : truthy m = true := by
      rcases (converter_convert_ok_iff _ _).1 h with ⟨base, m1, hbase, hthumb, hbeh⟩
      obtain ⟨mid, lab, md, cs, hmid, rfl⟩ := buildBase_shape _ _ _ hbase
      obtain ⟨ms1, rfl, hrm, hlk, hnn⟩ := applyThumb_preserves _ _ _ hthumb
      have hne1 : ms1 ≠ [] := hnn (baseObj_ne_nil mid lab md cs)
      rcases applyBehavior_split st.v3 with hid | ⟨x, hset⟩ | ⟨e, herr⟩
      · rw [hid] at hbeh
        simp at hbeh
        rw [← hbeh]
        exact truthy_obj ms1 hne1
      · rw [hset] at hbeh
        simp [setItem] at hbeh
        rw [← hbeh]
        exact truthy_obj _ (setKey_ne_nil ms1 "viewingHint" x)
      · rw [herr] at hbeh
        simp at hbeh
    unfold save
    rw [hst]
    simp [htr]
  · intro st m h
    have hst := downgrade_convert_state st m h
    have htr : truthy m = true := by
      rcases (downgrade_convert_ok_iff _ _).1 h with ⟨base, hbase, hbeh⟩
      obtain ⟨mid, lab, md, cs, hmid, rfl⟩ := buildBase_shape _ _ _ hbase
      have hne1 : baseObj mid lab md cs ≠ [] := baseObj_ne_nil mid lab md cs
      rcases applyBehavior_split st.v3 with hid | ⟨x, hset⟩ | ⟨e, herr⟩
      · rw [hid] at hbeh
        simp at hbeh
        rw [← hbeh]
        exact truthy_obj _ hne1
      · rw [hset] at hbeh
        simp [setItem] at hbeh
        rw [← hbeh]
        exact truthy_obj _ (setKey_ne_nil (baseObj mid lab md cs) "viewingHint" x)
      · rw [herr] at hbeh
        simp at hbeh
    unfold save
    rw [hst]
    simp [htr]

/-- C9 counterexample: with `{"id": "m1", "behavior": []}` convert() raises
`IndexError` (so no convert() call has ever produced a result), yet save()
does not raise — it writes the partially assembled manifest that convert()
assigned to `self.v2_manifest` before failing. -/
theorem save_after_failed_convert_cex :
    (converter_convert ⟨.obj [("id", .str "m1"), ("behavior", .arr [])],
        none, none⟩).2 = .error .indexError ∧
    save (converter_convert ⟨.obj [("id", .str "m1"), ("behavior", .arr [])],
        none, none⟩).1 =
      .ok (.obj (baseObj (.str "m1") (.str "") (.arr []) (.arr []))) := ⟨rfl, rfl⟩

/-- C9 witness: a fresh instance's save() raises, and after one successful
convert() save() writes the converted manifest. -/
theorem save_requires_assigned_manifest_witness :
    save ⟨.obj [("id", .str "m1")], none, none⟩ = .error .runtimeError ∧
    ((converter_convert ⟨.obj [("id", .str "m1")], none, none⟩).2 =
      .ok (.obj (baseObj (.str "m1") (.str "") (.arr []) (.arr []))) ∧
    save (converter_convert ⟨.obj [("id", .str "m1")], none, none⟩).1 =
      .ok (.obj (baseObj (.str "m1") (.str "") (.arr []) (.arr [])))) :=
  ⟨save_requires_assigned_manifest.1 (.obj [("id", .str "m1")]) none,
   rfl,
   save_requires_assigned_manifest.2.1 ⟨.obj [("id", .str "m1")], none, none⟩ _ rfl⟩

/-! ### Claim C10 — empty `items` in the thumbnail-attaching variant -/

/-- C10: any mapping whose `items` field is present but the empty sequence
passes the constructor's type check, yet the thumbnail-attaching variant's
convert() never succeeds on it: `v3.get("items", [None])[0]` raises
`IndexError` on the empty list instead of the call returning a v2 manifest
with zero canvases. -/
theorem empty_items_thumbnail_variant_fails (fs : List (String × JV)) (ov : Option JV)
    (h : lookupKey fs "items" = some (.arr [])) :
    mkConverter (.obj fs) ov = .ok ⟨.obj fs, ov, none⟩ ∧
    (∀ m, (converter_convert ⟨.obj fs, ov, none⟩).2 ≠ .ok m) ∧
    (∀ base, buildBase (.obj fs) ov = .ok base →
      applyThumb (.obj fs) base = .error .indexError) := by
  have hthumb : ∀ base, applyThumb (.obj fs) base = .error .indexError := by
    intro base
    unfold applyThumb
    simp [pyGetD, h, pyIndex0]
  refine ⟨rfl, ?_, fun base _ => hthumb base⟩
  intro m hok
  rcases (converter_convert_ok_iff _ _).1 hok with ⟨base, m1, hbase, ht, hbeh⟩
  rw [hthumb base] at ht
  simp at ht

/-- C10 witness: the concrete manifest `{"items": [], "id": "m0"}` passes
the constructor check and convert() does not return the zero-canvas
manifest (it raises instead). -/
theorem empty_items_thumbnail_variant_fails_witness :
    mkConverter (.obj [("items", .arr []), ("id", .str "m0")]) none =
      .ok ⟨.obj [("items", .arr []), ("id", .str "m0")], none, none⟩ ∧
    (converter_convert ⟨.obj [("items", .arr []), ("id", .str "m0")], none, none⟩).2 ≠
      .ok (.obj (baseObj (.str "m0") (.str "") (.arr []) (.arr []))) :=
  ⟨(empty_items_thumbnail_variant_fails [("items", .arr []), ("id", .str "m0")]
      none rfl).1,
   (empty_items_thumbnail_variant_fails [("items", .arr []), ("id", .str "m0")]
      none rfl).2.1 _⟩
